import Mathlib

/- Verification development for the YAM desktop shell.

   Shallow embedding of the window manager (registry, creation, close-promise
   lifecycle, IPC command router), the localization loader and the logging
   configurator, translated from the TypeScript sources.  Host-runtime objects
   (BrowserWindow handles, promises, the event loop) are represented by explicit
   data; JavaScript exceptions are represented by an explicit result type. -/

namespace YAM

/-- JavaScript values as they flow through the resize handler after the
destructuring `let [width, height] = args as number[]`: a finite number, the
result NaN of a numeric operation on a non-number, or undefined (the value of a
missing destructured element). -/
inductive JSVal where
  | num : Int → JSVal
  | nan : JSVal
  | undef : JSVal
deriving DecidableEq, Repr

/-- Semantics of `Math.max(x, m)` where `m` is a genuine number: any
non-number argument converts to NaN and makes the result NaN. -/
def jsMax : JSVal → Int → JSVal
  | JSVal.num a, b => JSVal.num (max a b)
  | _, _ => JSVal.nan

/-- Semantics of `Math.min(x, m)` where `m` is a genuine number. -/
def jsMin : JSVal → Int → JSVal
  | JSVal.num a, b => JSVal.num (min a b)
  | _, _ => JSVal.nan

/-- A width/height pair, as used by `size`, `minSize` and `maxSize` of the
window creation options. -/
structure SizePair where
  width : Int
  height : Int
deriving DecidableEq, Repr

/-- Creation-time configuration of a window (`IWindowOptions`).  The `onclose`
callback is a function or undefined in the source; only its presence
(truthiness) steers the code modelled here, so it is kept as a Bool.  The
`args` object pushed to the content post-load is not read by any modelled
operation and is omitted. -/
structure WindowOptions where
  name : String
  size : SizePair
  minSize : Option SizePair := none
  maxSize : Option SizePair := none
  hasFrame : Option Bool := none
  parent : Option Nat := none
  onclose : Bool := false
deriving DecidableEq, Repr

/-- The host-runtime window handle, recording the construction parameters the
manager passes to `new BrowserWindow` and the runtime-assigned id. -/
structure BrowserWindow where
  id : Nat
  width : Int
  height : Int
  minWidth : Option Int := none
  minHeight : Option Int := none
  maxWidth : Option Int := none
  maxHeight : Option Int := none
  frame : Bool := true
  modal : Bool := false
  visible : Bool := false
deriving DecidableEq, Repr

/-- A registry entry (`IWindowData`): the handle plus the creation options. -/
structure WindowData where
  window : BrowserWindow
  options : WindowOptions
deriving DecidableEq, Repr

/-- A JavaScript string-keyed record (object), as an insertion-ordered
association list with unique keys. -/
abbrev JSRecord (α : Type) := List (String × α)

/-- JavaScript `String.prototype.endsWith`, embedded as a suffix test on the
character data so that concrete instances evaluate structurally. -/
def jsEndsWith (s suffix : String) : Bool :=
  suffix.data.isSuffixOf s.data

/-- Indexing `record[k]`: the value stored under `k`, or none (undefined). -/
def recordGet {α : Type} : JSRecord α → String → Option α
  | [], _ => none
  | (k2, v) :: rest, k => if k2 = k then some v else recordGet rest k

/-- Assignment `record[k] = v`: replaces the value of an existing key in
place, otherwise appends the new key. -/
def recordSet {α : Type} : JSRecord α → String → α → JSRecord α
  | [], k, v => [(k, v)]
  | (k2, v2) :: rest, k, v =>
      if k2 = k then (k, v) :: rest else (k2, v2) :: recordSet rest k v

/-- The manager state `#WindowsList : Record<string, IWindowData>`. -/
abbrev WindowsList := JSRecord WindowData

/-- Outcome of running a method body that may throw a JavaScript exception. -/
inductive JSResult (α : Type) where
  | ok : α → JSResult α
  | thrown : String → JSResult α
deriving DecidableEq, Repr

/-- Modelled from the spec: the `@CatchAll(ehandler)` decorator comes from an
external npm package and the `ehandler` utility file is absent from the
sources; section 7 of the spec states that every exception thrown inside a
decorated method is caught, logged and swallowed, so the caller never observes
a throw.  The wrapped call then completes with no produced value, i.e. the
caller receives undefined (`none`). -/
def CatchAll {α : Type} : JSResult α → Option α
  | JSResult.ok a => some a
  | JSResult.thrown _ => none

namespace WindowManager

/-- The body of `WindowManager.get`, looking a window up by name (string
argument) or by runtime id (numeric argument).  For a string argument the code
evaluates `this.#WindowsList[arg].window ?? null`; when the name is not
registered the indexing yields undefined and the `.window` access throws a
TypeError.  For a numeric argument it collects `Object.values` of the registry,
maps to the handles and returns `find(w => w.id === arg) ?? null`. -/
def get (l : WindowsList) (arg : String ⊕ Nat) : JSResult (Option BrowserWindow) :=
  match arg with
  | Sum.inl name =>
      match recordGet l name with
      | some wd => JSResult.ok (some wd.window)
      | none => JSResult.thrown "TypeError"
  | Sum.inr i =>
      let windows := l.map (fun p => p.2.window)
      JSResult.ok (windows.find? (fun w => w.id == i))

/-- One dispatched effect of `windowIPCHandler` on the window handle. -/
inductive IPCEffect where
  | setSize : JSVal → JSVal → IPCEffect
  | sendSize : IPCEffect
  | center : IPCEffect
  | noop : IPCEffect
deriving DecidableEq, Repr

/-- The `resize` closure of `windowIPCHandler`: destructures the first two
payload elements, raises each dimension to `minSize` when present, lowers it
to `maxSize` when present, and calls `setSize` with the results. -/
def resize (w : WindowData) (args : List JSVal) : IPCEffect :=
  let width := args.getD 0 JSVal.undef
  let height := args.getD 1 JSVal.undef
  let p :=
    match w.options.minSize with
    | some m => (jsMax width m.width, jsMax height m.height)
    | none => (width, height)
  let q :=
    match w.options.maxSize with
    | some m => (jsMin p.1 m.width, jsMin p.2 m.height)
    | none => p
  IPCEffect.setSize q.1 q.2

/-- The `size` closure: reads the current size and reports it back to the
content process. -/
def size (_w : WindowData) : IPCEffect := IPCEffect.sendSize

/-- The `center` closure: repositions the window. -/
def center (_w : WindowData) : IPCEffect := IPCEffect.center

/-- `WindowManager.windowIPCHandler`: builds the channel dispatch map, checks
`Object.keys(map).includes(channel)` and runs `map[channel]()` only for a
valid channel; anything else falls through with no action. -/
def windowIPCHandler (w : WindowData) (channel : String) (args : List JSVal) : IPCEffect :=
  let map : List (String × IPCEffect) :=
    [("window-resize", resize w args), ("window-size", size w), ("window-center", center w)]
  let validChannel := (map.map Prod.fst).contains channel
  if validChannel then
    match map.find? (fun p => p.1 == channel) with
    | some p => p.2
    | none => IPCEffect.noop
  else IPCEffect.noop

/-- The handle produced by `new BrowserWindow({...})` inside
`createBaseWindow`, with the options spread exactly as in the source and the
runtime-assigned id made explicit. -/
def newBrowserWindow (freshId : Nat) (o : WindowOptions) : BrowserWindow :=
  { id := freshId
    width := o.size.width
    height := o.size.height
    minWidth := o.minSize.map SizePair.width
    minHeight := o.minSize.map SizePair.height
    maxWidth := o.maxSize.map SizePair.width
    maxHeight := o.maxSize.map SizePair.height
    frame := o.hasFrame.getD true
    modal := o.parent.isSome
    visible := false }

/-- Value returned by `createBaseWindow`: the armed close promise, or null. -/
inductive CreateResult where
  | closePromise : CreateResult
  | nullResult : CreateResult
deriving DecidableEq, Repr

/-- `WindowManager.createBaseWindow`: constructs the handle, stores the record
under `options.name` in the windows list, and returns
`options.onclose ? this.createClosePromise(w, options.onclose) : null`. -/
def createBaseWindow (l : WindowsList) (freshId : Nat) (o : WindowOptions) :
    WindowsList × CreateResult :=
  let bw := newBrowserWindow freshId o
  let l2 := recordSet l o.name { window := bw, options := o }
  (l2, if o.onclose then CreateResult.closePromise else CreateResult.nullResult)

/-- One observable invocation of the `onclose` callback. -/
inductive CallbackCall where
  | spreadArgs : List Int → CallbackCall
  | noArgs : CallbackCall
  | nullArg : CallbackCall
deriving DecidableEq, Repr

/-- A value passed to the promise `resolve` function. -/
inductive Resolution where
  | arr : List Int → Resolution
  | nullV : Resolution
deriving DecidableEq, Repr

/-- State of one close promise created by `createClosePromise`: the
`closeWithIPC` flag, the resolution (none while pending; a promise keeps the
first resolved value), the recorded callback invocations, whether
`window.close()` was requested, and whether a listener threw. -/
structure CloseState where
  closeWithIPC : Bool := false
  resolved : Option Resolution := none
  calls : List CallbackCall := []
  closeRequested : Bool := false
  threw : Bool := false
deriving DecidableEq, Repr

/-- Calling the `resolve` function of a promise: only the first call settles
the promise, later calls are ignored. -/
def resolveP (s : CloseState) (v : Resolution) : CloseState :=
  if s.resolved.isSome then s else { s with resolved := some v }

/-- An event observed by the two listeners armed in `createClosePromise`: an
ipc-message (channel plus the single bound payload parameter `args`, which is
undefined when the message carries no payload), or the native close event. -/
inductive CloseEvent where
  | ipcMessage : String → Option (List Int) → CloseEvent
  | nativeClose : CloseEvent
deriving DecidableEq, Repr

/-- One step of the two listeners armed by `createClosePromise`.  On the
window-close channel: invoke `onclose` spreading `args` when defined and with
no arguments otherwise, set `closeWithIPC`, request `window.close()`, then
evaluate `resolve([...args] ?? null)` — spreading a defined `args` yields a
(never nullish) copy of the array, while spreading undefined throws a
TypeError before `resolve` runs.  On the native close event: when `onclose`
is set and `closeWithIPC` is not, call `onclose(null)` and resolve null. -/
def closeStep (onclose : Bool) (s : CloseState) (e : CloseEvent) : CloseState :=
  match e with
  | CloseEvent.ipcMessage channel args =>
      if channel = "window-close" then
        let s1 :=
          if onclose then
            match args with
            | some l => { s with calls := s.calls ++ [CallbackCall.spreadArgs l] }
            | none => { s with calls := s.calls ++ [CallbackCall.noArgs] }
          else s
        let s2 := { s1 with closeWithIPC := true, closeRequested := true }
        match args with
        | some l => resolveP s2 (Resolution.arr l)
        | none => { s2 with threw := true }
      else s
  | CloseEvent.nativeClose =>
      if onclose && !s.closeWithIPC then
        resolveP { s with calls := s.calls ++ [CallbackCall.nullArg] } Resolution.nullV
      else s

/-- A whole run of the close-promise listeners over a sequence of events,
starting from the freshly armed state. -/
def runClose (onclose : Bool) (events : List CloseEvent) : CloseState :=
  events.foldl (closeStep onclose) {}

end WindowManager

/-- An i18next per-language resource bundle, abstracted as its key/value
translation entries (the loader only stores bundles, never inspects them). -/
structure ResourceLang where
  entries : List (String × String)
deriving DecidableEq, Repr

/-- The text of a resource file as seen by `JSON.parse`: either it parses to a
bundle, or it is malformed and parsing throws with the given message. -/
inductive JSONContent where
  | valid : ResourceLang → JSONContent
  | malformed : String → JSONContent
deriving DecidableEq, Repr

/-- A directory entry returned by `fs.readdir(dir, { withFileTypes: true })`,
together with the content `fs.readFile` yields for it. -/
structure Dirent where
  name : String
  isFile : Bool
  content : JSONContent
deriving DecidableEq, Repr

namespace Localization

/-- `JSON.parse` on a resource file: a malformed file throws (error). -/
def parseJSON : JSONContent → Except String ResourceLang
  | JSONContent.valid r => Except.ok r
  | JSONContent.malformed m => Except.error m

/-- `path.basename(p, ".json")`: the file name with the extension stripped
(directory components play no role here since entries carry bare names). -/
def basenameStem (p : String) (ext : String) : String :=
  if jsEndsWith p ext then p.dropRight ext.length else p

/-- The async mapper applied to every resource file: read it, parse it, and
pair the bundle with the language ISO code taken from the file name stem. -/
def readResource (d : Dirent) : Except String (String × ResourceLang) :=
  match parseJSON d.content with
  | Except.error e => Except.error e
  | Except.ok data => Except.ok (basenameStem d.name ".json", data)

/-- `getTranslationResourcesFromDir`: keep the regular files ending in
`.json`, read and parse them all (`Promise.all` rejects with the error of a
failed member, aborting the load), then assign each parsed bundle into the
resources record keyed by language code. -/
def getTranslationResourcesFromDir (dirents : List Dirent) :
    Except String (JSRecord ResourceLang) :=
  let files := dirents.filter (fun d => d.isFile && jsEndsWith d.name ".json")
  match files.mapM readResource with
  | Except.error e => Except.error e
  | Except.ok parsed =>
      Except.ok (parsed.foldl (fun acc kv => recordSet acc kv.1 kv.2) [])

/-- The i18next engine state after initialization. -/
structure I18nState where
  resources : JSRecord ResourceLang
  language : String
  fallbackLng : String
deriving DecidableEq, Repr

/-- `changeLanguage`: switch the active language. -/
def changeLanguage (st : I18nState) (lang : String) : I18nState :=
  { st with language := lang }

/-- `initLocalization`: load the resources from the directory (propagating any
error — there is no try/catch in the source), initialize i18next with the
language-detector result and the build-mode fallback, then change language
when one was requested. -/
def initLocalization (isDev : Bool) (detected : String) (dirents : List Dirent)
    (language : Option String) : Except String I18nState :=
  match getTranslationResourcesFromDir dirents with
  | Except.error e => Except.error e
  | Except.ok res =>
      let st : I18nState :=
        { resources := res
          language := detected
          fallbackLng := if isDev then "dev" else "en" }
      Except.ok (match language with
        | some lang => changeLanguage st lang
        | none => st)

end Localization

/-- Modelled from the spec: `TLoggerCategory` is declared in a common types
file absent from the sources.  Section 4.5 fixes one category per rotating
output: default, main, renderer and the update-check API client, whose
configuration key in the source is "f95". -/
inductive TLoggerCategory where
  | defaultCat : TLoggerCategory
  | main : TLoggerCategory
  | renderer : TLoggerCategory
  | f95 : TLoggerCategory
deriving DecidableEq, Repr

/-- The configuration key string of a logger category. -/
def TLoggerCategory.toKey : TLoggerCategory → String
  | TLoggerCategory.defaultCat => "default"
  | TLoggerCategory.main => "main"
  | TLoggerCategory.renderer => "renderer"
  | TLoggerCategory.f95 => "f95"

namespace Logging

/-- A log4js layout. -/
structure Layout where
  kind : String
  pattern : String
deriving DecidableEq, Repr

/-- The common layout of the loggers (`LAYOUT`). -/
def LAYOUT : Layout :=
  { kind := "pattern"
    pattern := "[%d\x7byyyy/MM/dd-hh.mm.ss\x7d] (%p - %c) %m" }

/-- A log4js file appender (the `type` field is rendered as `kind`). -/
structure Appender where
  kind : String
  filename : String
  layout : Layout
  keepFileExt : Bool
  maxLogSize : Nat
  backups : Nat
  compress : Bool
deriving DecidableEq, Repr

/-- `createCommonAppender`: a rotating file appender for the given path. -/
def createCommonAppender (filename : String) : Appender :=
  { kind := "file"
    filename := filename
    layout := LAYOUT
    keepFileExt := true
    maxLogSize := 10485760
    backups := 3
    compress := true }

/-- A per-category entry of the log4js configuration. -/
structure CategoryConfig where
  appenders : List String
  level : String
deriving DecidableEq, Repr

/-- The log4js configuration object handed to `configure`. -/
structure Configuration where
  appenders : JSRecord Appender
  categories : JSRecord CategoryConfig
deriving DecidableEq, Repr

/-- The module state of the logging configurator: the `initialized` global
flag and the configuration currently loaded into log4js. -/
structure LoggerState where
  initialized : Bool
  configuration : Option Configuration
deriving DecidableEq, Repr

/-- State of the process before `init` has been called. -/
def initialLoggerState : LoggerState :=
  { initialized := false, configuration := none }

/-- `init`: build the four appenders from the shared log paths, pick the level
from the build mode, load the configuration into log4js and set the
`initialized` flag. -/
def init (isDev : Bool) (logDir : String) (_s : LoggerState) : LoggerState :=
  let defaultAppender := createCommonAppender (logDir ++ "/default.log")
  let mainAppender := createCommonAppender (logDir ++ "/main.log")
  let rendererAppender := createCommonAppender (logDir ++ "/renderer.log")
  let f95Appender := createCommonAppender (logDir ++ "/f95api.log")
  let level := if isDev then "debug" else "warn"
  let configuration : Configuration :=
    { appenders :=
        [("default", defaultAppender), ("main", mainAppender),
         ("renderer", rendererAppender), ("f95", f95Appender)]
      categories :=
        [("default", { appenders := ["default"], level := "debug" }),
         ("main", { appenders := ["main"], level := level }),
         ("renderer", { appenders := ["renderer"], level := level }),
         ("f95", { appenders := ["f95"], level := level })] }
  { initialized := true, configuration := some configuration }

/-- A category logger handed out by log4js. -/
structure Logger where
  category : String
deriving DecidableEq, Repr

/-- log4js `getLogger`. -/
def getLogger (category : String) : Logger := { category := category }

/-- `get`: throws when the loggers were not initialized (the message keeps the
spelling of the source), otherwise returns the category logger. -/
def get (s : LoggerState) (category : TLoggerCategory) : Except String Logger :=
  if !s.initialized then Except.error "Loggers not initiailized"
  else Except.ok (getLogger category.toKey)

end Logging

/-- Clamping of one dimension as the spec describes it: raised to the lower
bound when `minSize` supplies one, then lowered to the upper bound when
`maxSize` supplies one. -/
def clampDim (mn mx : Option Int) (x : Int) : Int :=
  let y := match mn with | some m => max x m | none => x
  match mx with | some m => min y m | none => y

/-- The same per-dimension clamping over JavaScript values, with NaN
propagation through `Math.max` and `Math.min`. -/
def clampJS (mn mx : Option Int) (x : JSVal) : JSVal :=
  let y := match mn with | some m => jsMax x m | none => x
  match mx with | some m => jsMin y m | none => y

/-- Window data of a messagebox-like window with a maximum size and no
minimum size, used as a concrete router input. -/
def demoMaxWindow : WindowData :=
  let o : WindowOptions :=
    { name := "messagebox", size := { width := 450, height := 230 },
      maxSize := some { width := 1600, height := 900 } }
  { window := WindowManager.newBrowserWindow 1 o, options := o }

/-- Window data of a main-like window with a minimum size and no maximum
size, used as a concrete router input. -/
def demoMinWindow : WindowData :=
  let o : WindowOptions :=
    { name := "main", size := { width := 800, height := 600 },
      minSize := some { width := 1024, height := 620 } }
  { window := WindowManager.newBrowserWindow 2 o, options := o }

/-- Creation options reusing the name of an already registered window. -/
def demoMainOptions : WindowOptions :=
  { name := "main", size := { width := 800, height := 600 },
    minSize := some { width := 1024, height := 620 }, onclose := true }

/-- A registry holding an old window under "main" and one under "settings". -/
def demoList : WindowsList :=
  [("main", demoMinWindow), ("settings", demoMaxWindow)]

/-- A resource directory holding a single malformed translation file. -/
def demoBadDir : List Dirent :=
  [{ name := "en.json", isFile := true,
     content := JSONContent.malformed "Unexpected token" }]

/-- The malformed entry of `demoBadDir`. -/
def demoBadDirent : Dirent :=
  { name := "en.json", isFile := true,
    content := JSONContent.malformed "Unexpected token" }

section Lemmas

open WindowManager

/-- Dispatching the handler on the window-resize channel runs the resize
closure. -/
theorem windowIPCHandler_resize (w : WindowData) (args : List JSVal) :
    windowIPCHandler w "window-resize" args = resize w args := rfl

/-- Reading back the key just assigned into a JavaScript record yields the
assigned value. -/
theorem recordGet_recordSet_self {α : Type} (l : JSRecord α) (k : String) (v : α) :
    recordGet (recordSet l k v) k = some v := by
  induction l with
  | nil => simp [recordSet, recordGet]
  | cons hd tl ih =>
      obtain ⟨k2, v2⟩ := hd
      by_cases h : k2 = k
      · simp [recordSet, recordGet, h]
      · simp [recordSet, recordGet, h, ih]

/-- Assigning one key of a JavaScript record leaves every other key
unchanged. -/
theorem recordGet_recordSet_ne {α : Type} (l : JSRecord α) (k k3 : String) (v : α)
    (h : k3 ≠ k) : recordGet (recordSet l k v) k3 = recordGet l k3 := by
  have h4 : k ≠ k3 := Ne.symm h
  induction l with
  | nil => simp [recordSet, recordGet, h4]
  | cons hd tl ih =>
      obtain ⟨k2, v2⟩ := hd
      by_cases h2 : k2 = k
      · subst h2
        simp [recordSet, recordGet, h4]
      · by_cases h3 : k2 = k3
        · simp [recordSet, recordGet, h2, h3, h]
        · simp [recordSet, recordGet, h2, h3, ih]

/-- Numeric inputs move through the JavaScript clamp exactly as through the
integer clamp. -/
theorem clampJS_num (mn mx : Option Int) (a : Int) :
    clampJS mn mx (JSVal.num a) = JSVal.num (clampDim mn mx a) := by
  cases mn <;> cases mx <;> simp [clampJS, clampDim, jsMax, jsMin]

/-- The resize closure applies the JavaScript clamp independently to each of
the two destructured payload elements. -/
theorem resize_eq_clampJS (w : WindowData) (args : List JSVal) :
    resize w args =
      IPCEffect.setSize
        (clampJS (w.options.minSize.map SizePair.width)
          (w.options.maxSize.map SizePair.width) (args.getD 0 JSVal.undef))
        (clampJS (w.options.minSize.map SizePair.height)
          (w.options.maxSize.map SizePair.height) (args.getD 1 JSVal.undef)) := by
  rcases w with ⟨bw, o⟩
  rcases o with ⟨name, sz, mn, mx, fr, pa, oc⟩
  cases mn <;> cases mx <;> simp [resize, clampJS]

/-- A mapper that fails on a member of the list makes the whole `mapM` over
the `Except` monad fail. -/
theorem mapM_error_of_mem {α β : Type} (f : α → Except String β) (l : List α)
    (x : α) (hx : x ∈ l) (e : String) (he : f x = Except.error e) :
    ∃ m, l.mapM f = Except.error m := by
  induction l with
  | nil => cases hx
  | cons hd tl ih =>
      cases hf : f hd with
      | error m =>
          refine ⟨m, ?_⟩
          rw [List.mapM_cons, hf]
          rfl
      | ok b =>
          rcases List.mem_cons.mp hx with h | h
          · rw [h] at he
            rw [he] at hf
            cases hf
          · obtain ⟨m, hm⟩ := ih h
            refine ⟨m, ?_⟩
            rw [List.mapM_cons, hf, hm]
            rfl

end Lemmas

section Claims

open WindowManager

/-- C1: the claim says `WindowManager.get` returns null for an unknown name or
an unknown numeric id and never throws to the caller.  On an unknown numeric
id the code does return null, but on an unknown name the body evaluates the
`.window` member of an undefined registry entry and throws a TypeError; the
blanket catch decorator swallows it, so the caller receives undefined rather
than the null promised by the method documentation. -/
theorem get_unknown_name_throws :
    get [] (Sum.inl "ghost") = JSResult.thrown "TypeError" ∧
    CatchAll (get [] (Sum.inl "ghost")) = (none : Option (Option BrowserWindow)) ∧
    CatchAll (get [] (Sum.inr 7)) = some (none : Option BrowserWindow) ∧
    (none : Option (Option BrowserWindow)) ≠ some none :=
  ⟨rfl, rfl, rfl, by decide⟩

/-- C2: the claim says the close-promise resolves exactly once whichever edge
fires first.  When the window-close message arrives with an undefined payload
parameter the handler calls the callback, sets the flag and requests the
close, but then throws spreading undefined, so `resolve` never runs; the
subsequent native close event is suppressed by the flag and the promise stays
pending forever. -/
theorem closePromise_no_payload_never_resolves :
    (runClose true [CloseEvent.ipcMessage "window-close" none,
      CloseEvent.nativeClose]).threw = true ∧
    (runClose true [CloseEvent.ipcMessage "window-close" none,
      CloseEvent.nativeClose]).resolved = none ∧
    (runClose true [CloseEvent.ipcMessage "window-close" none,
      CloseEvent.nativeClose]).calls = [CallbackCall.noArgs] ∧
    (runClose true [CloseEvent.ipcMessage "window-close" none,
      CloseEvent.nativeClose]).closeRequested = true := by
  decide

/-- C3: a window-resize command with numeric payload is clamped per dimension
independently — each dimension is raised to the minSize bound when minSize is
present and lowered to the maxSize bound when maxSize is present — and the
payload 2000 by 300 against maxSize 1600 by 900 with no minSize yields the
applied size 1600 by 300. -/
theorem windowResize_clamps_per_dimension :
    (∀ (w : WindowData) (a b : Int),
        windowIPCHandler w "window-resize" [JSVal.num a, JSVal.num b] =
          IPCEffect.setSize
            (JSVal.num (clampDim (w.options.minSize.map SizePair.width)
              (w.options.maxSize.map SizePair.width) a))
            (JSVal.num (clampDim (w.options.minSize.map SizePair.height)
              (w.options.maxSize.map SizePair.height) b))) ∧
    windowIPCHandler demoMaxWindow "window-resize" [JSVal.num 2000, JSVal.num 300] =
      IPCEffect.setSize (JSVal.num 1600) (JSVal.num 300) := by
  constructor
  · intro w a b
    rw [windowIPCHandler_resize, resize_eq_clampJS]
    simp [clampJS_num]
  · decide

/-- C4 counterexample: the claim says the IPC-close edge resolves the promise
with null when the argument array is empty; in fact the handler resolves with
the spread copy of the array, which for the empty array is the empty array
and not null, because a freshly spread array is never nullish. -/
theorem closePromise_empty_array_resolves_empty_not_null :
    (runClose true [CloseEvent.ipcMessage "window-close" (some [])]).resolved =
      some (Resolution.arr []) ∧
    (runClose true [CloseEvent.ipcMessage "window-close" (some [])]).resolved ≠
      some Resolution.nullV := by
  decide

/-- C4 amended: when the IPC-close edge fires with a defined argument array,
the handler invokes the callback spreading the payload arguments, requests
the handle close, and resolves the promise with a copy of the argument array
— including the empty one; the null fallback after the spread never fires. -/
theorem closePromise_ipc_edge_behavior (l : List Int) :
    runClose true [CloseEvent.ipcMessage "window-close" (some l)] =
      { closeWithIPC := true
        resolved := some (Resolution.arr l)
        calls := [CallbackCall.spreadArgs l]
        closeRequested := true
        threw := false } := by
  simp [runClose, closeStep, resolveP]

/-- C5: `createBaseWindow` returns a close promise exactly when a close
callback was supplied in the options, and null exactly when none was. -/
theorem createBaseWindow_returns_promise_iff_onclose :
    ∀ (l : WindowsList) (freshId : Nat) (o : WindowOptions),
      ((createBaseWindow l freshId o).2 = CreateResult.closePromise ↔
        o.onclose = true) ∧
      ((createBaseWindow l freshId o).2 = CreateResult.nullResult ↔
        o.onclose = false) := by
  intro l freshId o
  cases h : o.onclose <;> simp [createBaseWindow, h]

/-- C6: `createBaseWindow` stores the new record under the configured name,
overwriting any prior entry of that name without a duplicate check, and every
entry stored under a different name is left unchanged. -/
theorem createBaseWindow_overwrites_name_preserves_others
    (l : WindowsList) (freshId : Nat) (o : WindowOptions) :
    recordGet (createBaseWindow l freshId o).1 o.name =
      some { window := newBrowserWindow freshId o, options := o } ∧
    ∀ k, k ≠ o.name → recordGet (createBaseWindow l freshId o).1 k = recordGet l k := by
  constructor
  · exact recordGet_recordSet_self l o.name _
  · intro k hk
    exact recordGet_recordSet_ne l o.name k _ hk

/-- C6 witness: re-creating the window named main over a registry already
holding a main entry overwrites that entry and leaves the settings entry
untouched. -/
theorem createBaseWindow_overwrites_witness :
    recordGet (createBaseWindow demoList 5 demoMainOptions).1 "main" =
      some { window := newBrowserWindow 5 demoMainOptions, options := demoMainOptions } ∧
    recordGet (createBaseWindow demoList 5 demoMainOptions).1 "settings" =
      recordGet demoList "settings" :=
  ⟨(createBaseWindow_overwrites_name_preserves_others demoList 5 demoMainOptions).1,
   (createBaseWindow_overwrites_name_preserves_others demoList 5 demoMainOptions).2
     "settings" (by decide)⟩

/-- C7: every inbound channel other than window-resize, window-size and
window-center is silently ignored by the IPC command router: no action is
dispatched and nothing is thrown. -/
theorem unknown_channels_ignored (w : WindowData) (args : List JSVal)
    (channel : String) (h1 : channel ≠ "window-resize")
    (h2 : channel ≠ "window-size") (h3 : channel ≠ "window-center") :
    windowIPCHandler w channel args = IPCEffect.noop := by
  have hc : ((["window-resize", "window-size", "window-center"] : List String).contains
      channel) = false := by
    simp [List.contains, h1, h2, h3]
  have hcond : ¬ ((["window-resize", "window-size", "window-center"] : List String).contains
      channel = true) := by
    simp [hc]
    exact ⟨h1, h2, h3⟩
  simp only [windowIPCHandler, List.map_cons, List.map_nil]
  exact if_neg hcond

/-- C7 witness: the window-move channel is not one of the three reserved
commands and the router leaves it without action. -/
theorem unknown_channels_ignored_witness :
    (("window-move" : String) ≠ "window-resize" ∧
     ("window-move" : String) ≠ "window-size" ∧
     ("window-move" : String) ≠ "window-center") ∧
    windowIPCHandler demoMaxWindow "window-move" [] = IPCEffect.noop :=
  ⟨by decide,
   unknown_channels_ignored demoMaxWindow [] "window-move"
     (by decide) (by decide) (by decide)⟩

/-- C8: when the scanned resource directory holds a regular json file whose
content is malformed, the whole localization init aborts and the parse error
propagates to the caller of init instead of being caught. -/
theorem malformed_resource_aborts_init (isDev : Bool) (detected : String)
    (dirents : List Dirent) (language : Option String) (d : Dirent) (msg : String)
    (hmem : d ∈ dirents) (hfile : d.isFile = true)
    (hjson : jsEndsWith d.name ".json" = true)
    (hmal : d.content = JSONContent.malformed msg) :
    ∃ e, Localization.initLocalization isDev detected dirents language =
      Except.error e := by
  have hmem2 : d ∈ dirents.filter (fun d => d.isFile && jsEndsWith d.name ".json") :=
    List.mem_filter.mpr ⟨hmem, by simp [hfile, hjson]⟩
  have hrd : Localization.readResource d = Except.error msg := by
    simp [Localization.readResource, Localization.parseJSON, hmal]
  obtain ⟨m, hm⟩ := mapM_error_of_mem Localization.readResource _ d hmem2 msg hrd
  have hg : Localization.getTranslationResourcesFromDir dirents = Except.error m := by
    show (match (dirents.filter
          (fun d => d.isFile && jsEndsWith d.name ".json")).mapM
            Localization.readResource with
        | Except.error e => Except.error e
        | Except.ok parsed =>
            Except.ok (parsed.foldl (fun acc kv => recordSet acc kv.1 kv.2) [])) =
      Except.error m
    rw [hm]
  refine ⟨m, ?_⟩
  unfold Localization.initLocalization
  rw [hg]

/-- C8 witness: a directory whose only translation file en.json is malformed
makes the localization init fail with a propagated error. -/
theorem malformed_resource_aborts_init_witness :
    ∃ e, Localization.initLocalization false "en" demoBadDir none = Except.error e :=
  malformed_resource_aborts_init false "en" demoBadDir none demoBadDirent
    "Unexpected token" (by decide) rfl (by decide) rfl

/-- C9: requesting a category logger throws exactly when the configurator is
not initialized; in the fresh process state every request throws, and after
init every category yields a logger without throwing. -/
theorem logger_get_throws_iff_uninitialized :
    (∀ (s : Logging.LoggerState) (cat : TLoggerCategory),
        (∃ e, Logging.get s cat = Except.error e) ↔ s.initialized = false) ∧
    (∀ (cat : TLoggerCategory),
        ∃ e, Logging.get Logging.initialLoggerState cat = Except.error e) ∧
    (∀ (isDev : Bool) (logDir : String) (s : Logging.LoggerState)
        (cat : TLoggerCategory),
        ∃ lg, Logging.get (Logging.init isDev logDir s) cat = Except.ok lg) := by
  refine ⟨?_, ?_, ?_⟩
  · intro s cat
    cases h : s.initialized <;> simp [Logging.get, h]
  · intro cat
    exact ⟨"Loggers not initiailized", rfl⟩
  · intro isDev logDir s cat
    exact ⟨Logging.getLogger cat.toKey, rfl⟩

/-- C10: the window-resize handler validates nothing: for every payload,
including one whose first two elements are missing or non-numeric, it still
produces a setSize call with the clamped destructured values, so with a
minSize present and an empty payload the NaN produced by clamping undefined
is passed straight to the host runtime. -/
theorem resize_no_validation :
    (∀ (w : WindowData) (args : List JSVal),
        windowIPCHandler w "window-resize" args =
          IPCEffect.setSize
            (clampJS (w.options.minSize.map SizePair.width)
              (w.options.maxSize.map SizePair.width) (args.getD 0 JSVal.undef))
            (clampJS (w.options.minSize.map SizePair.height)
              (w.options.maxSize.map SizePair.height) (args.getD 1 JSVal.undef))) ∧
    windowIPCHandler demoMinWindow "window-resize" [] =
      IPCEffect.setSize JSVal.nan JSVal.nan := by
  constructor
  · intro w args
    rw [windowIPCHandler_resize, resize_eq_clampJS]
  · decide

end Claims

end YAM
